import Mathlib

/-!
Shallow embedding of `tracing-allocations` (src/src/lib.rs), a wrapper
around a global allocator that emits one tracing event per allocation
operation, guarded by a per-thread `RefCell<bool>` flag.

Modelling choices:
- Addresses and sizes are `Nat` (a null return is address 0).
- The underlying allocator (`GlobalAlloc`) is an explicit deterministic
  state machine over an abstract state type `σ`.
- The per-thread state `TState` carries the thread-local flag
  (`TRACE_ALLOCATOR`), whether its `RefCell` is currently exclusively
  borrowed (`held`), and whether the thread-local storage is still
  accessible (`tlsAlive`; `LocalKey::try_with` fails when it is not).
- The `tracing::trace!` sink is an abstract function `sink : Event → Bool`;
  `sink ev = true` means the record was submitted successfully,
  `sink ev = false` means submitting the record panicked.  A panic is a
  `Bool` flowing alongside the result; `catch_unwind` discards it.
- Fallible scoped helpers return `Except Unit R`: `.error ()` is a panic
  unwinding out of the call.
-/

/-- One structured allocation event, as emitted by `tracing::trace!` in the
four `GlobalAlloc` methods of `TracingAllocator`. -/
inductive Event where
  | alloc (addr size : Nat)
  | dealloc (addr size : Nat)
  | alloc_zeroed (addr size : Nat)
  | realloc (old_addr old_size new_addr new_size : Nat)
deriving DecidableEq, Repr

/-- `core::alloc::Layout`: a size and an alignment. -/
structure Layout where
  size : Nat
  align : Nat
deriving DecidableEq, Repr

/-- The underlying allocator: the four-method `GlobalAlloc` capability set,
modelled as a deterministic state machine over state `σ`. -/
structure GlobalAlloc (σ : Type) where
  alloc : σ → Layout → σ × Nat
  dealloc : σ → Nat → Layout → σ
  alloc_zeroed : σ → Layout → σ × Nat
  realloc : σ → Nat → Layout → Nat → σ × Nat

/-- `TracingAllocator<A>`: a wrapper holding exactly one underlying
allocator (field `allocator`, as in the source). -/
structure TracingAllocator (σ : Type) where
  allocator : GlobalAlloc σ

/-- The state of one thread's `TRACE_ALLOCATOR: RefCell<bool>` thread-local:
the flag value, whether the `RefCell` is currently mutably borrowed, and
whether the thread-local storage is still accessible. -/
structure TState where
  flag : Bool
  held : Bool
  tlsAlive : Bool
deriving DecidableEq, Repr

/-- `TRACE_ALLOCATOR` is initialized to `RefCell::new(true)`: a fresh
thread's state has the flag enabled, the cell free, and TLS alive. -/
def initialTState : TState := { flag := true, held := false, tlsAlive := true }

/-- `maybe_with_guard` (lib.rs:148-153):
`TRACE_ALLOCATOR.try_with(|guard| guard.try_borrow_mut().map(f))`, result
discarded.  `try_with` fails when TLS is gone; `try_borrow_mut` fails when
the cell is already borrowed; either failure is a silent no-op.  On success
`f` receives the flag by exclusive borrow and may rewrite it; `f` yields
(new flag, events submitted, panicked?).  A panic out of `f` releases the
borrow while unwinding, so `held` is unchanged afterwards. -/
def maybe_with_guard (f : Bool → Bool × List Event × Bool) (t : TState) :
    TState × List Event × Bool :=
  if t.tlsAlive then
    if t.held then (t, [], false)
    else
      let p := f t.flag
      ({ t with flag := p.1 }, p.2.1, p.2.2)
  else (t, [], false)

/-- The closure passed to `maybe_with_guard` by each allocator method:
`if *trace_allocations { tracing::trace!(...) }`.  It never writes the
flag; when the flag is set it submits `ev` to the sink, and a sink panic
(`sink ev = false`) loses the record and unwinds. -/
def emitIfEnabled (sink : Event → Bool) (ev : Event) :
    Bool → Bool × List Event × Bool :=
  fun flag =>
    if flag then
      if sink ev then (flag, [ev], false) else (flag, [], true)
    else (flag, [], false)

/-- `TracingAllocator::alloc` (lib.rs:174-191): delegate to the underlying
allocator first, then `catch_unwind` around `maybe_with_guard` emitting
`alloc { addr, size }`, then return the underlying pointer.  Result:
(underlying state, thread state, events, returned address). -/
def TracingAllocator.alloc {σ : Type} (A : TracingAllocator σ)
    (sink : Event → Bool) (s : σ) (t : TState) (layout : Layout) :
    σ × TState × List Event × Nat :=
  let r := A.allocator.alloc s layout
  let g := maybe_with_guard (emitIfEnabled sink (Event.alloc r.2 layout.size)) t
  (r.1, g.1, g.2.1, r.2)

/-- `TracingAllocator::dealloc` (lib.rs:209-224): delegate first, then emit
`dealloc { addr, size }` under the guard, panics discarded. -/
def TracingAllocator.dealloc {σ : Type} (A : TracingAllocator σ)
    (sink : Event → Bool) (s : σ) (t : TState) (ptr : Nat) (layout : Layout) :
    σ × TState × List Event :=
  let s2 := A.allocator.dealloc s ptr layout
  let g := maybe_with_guard (emitIfEnabled sink (Event.dealloc ptr layout.size)) t
  (s2, g.1, g.2.1)

/-- `TracingAllocator::alloc_zeroed` (lib.rs:242-259): delegate first, then
emit `alloc_zeroed { addr, size }` under the guard, panics discarded. -/
def TracingAllocator.alloc_zeroed {σ : Type} (A : TracingAllocator σ)
    (sink : Event → Bool) (s : σ) (t : TState) (layout : Layout) :
    σ × TState × List Event × Nat :=
  let r := A.allocator.alloc_zeroed s layout
  let g := maybe_with_guard (emitIfEnabled sink (Event.alloc_zeroed r.2 layout.size)) t
  (r.1, g.1, g.2.1, r.2)

/-- `TracingAllocator::realloc` (lib.rs:281-300): delegate first, then emit
`realloc { old_addr, old_size, new_addr, new_size }` under the guard,
panics discarded. -/
def TracingAllocator.realloc {σ : Type} (A : TracingAllocator σ)
    (sink : Event → Bool) (s : σ) (t : TState) (old_ptr : Nat)
    (old_layout : Layout) (new_size : Nat) :
    σ × TState × List Event × Nat :=
  let r := A.allocator.realloc s old_ptr old_layout new_size
  let g := maybe_with_guard
    (emitIfEnabled sink (Event.realloc old_ptr old_layout.size r.2 new_size)) t
  (r.1, g.1, g.2.1, r.2)

/-- `disable_in_scope` (lib.rs:131-146):
`prev = TRACE_ALLOCATOR.try_with(|g| g.replace(false)).unwrap_or(false);`
`res = f(); let _ = TRACE_ALLOCATOR.try_with(|g| g.replace(prev)); res`.
`RefCell::replace` panics when the cell is borrowed (`held`), and that
panic propagates (there is no catch here).  When TLS is dead `try_with`
fails, `unwrap_or` supplies `false`, and the flag writes are skipped.
The work `f` acts on the thread state and may panic (`.error ()`); note
the source restores `prev` only on the normal-return path. -/
def disable_in_scope {R : Type} (f : TState → TState × Except Unit R)
    (t : TState) : TState × Except Unit R :=
  if t.tlsAlive then
    if t.held then (t, Except.error ())
    else
      let prev := t.flag
      match f { t with flag := false } with
      | (t2, Except.ok r) =>
          if t2.tlsAlive then
            if t2.held then (t2, Except.error ())
            else ({ t2 with flag := prev }, Except.ok r)
          else (t2, Except.ok r)
      | (t2, Except.error e) => (t2, Except.error e)
  else
    match f t with
    | (t2, Except.ok r) =>
        if t2.tlsAlive then
          if t2.held then (t2, Except.error ())
          else ({ t2 with flag := false }, Except.ok r)
        else (t2, Except.ok r)
    | (t2, Except.error e) => (t2, Except.error e)

/-- Modelled from the spec: `with_tracing_enabled(work)` (spec §4.2) is
absent from src/ (the source only ships `disable_in_scope`); the spec calls
it "symmetric" to the disabling scope, so this definition is
`disable_in_scope` with the two `replace` arguments flipped: save the flag,
set it to `true`, run the work, restore the saved value on normal return. -/
def enable_in_scope {R : Type} (f : TState → TState × Except Unit R)
    (t : TState) : TState × Except Unit R :=
  if t.tlsAlive then
    if t.held then (t, Except.error ())
    else
      let prev := t.flag
      match f { t with flag := true } with
      | (t2, Except.ok r) =>
          if t2.tlsAlive then
            if t2.held then (t2, Except.error ())
            else ({ t2 with flag := prev }, Except.ok r)
          else (t2, Except.ok r)
      | (t2, Except.error e) => (t2, Except.error e)
  else
    match f t with
    | (t2, Except.ok r) =>
        if t2.tlsAlive then
          if t2.held then (t2, Except.error ())
          else ({ t2 with flag := false }, Except.ok r)
        else (t2, Except.ok r)
    | (t2, Except.error e) => (t2, Except.error e)

/-- Process-wide collaborator state observed by `housekeeping`: whether
`std::io::Stdout`'s shared global buffer has been initialized. -/
structure World where
  stdoutInit : Bool
deriving DecidableEq, Repr

/-- `housekeeping` (lib.rs:105-121): `disable_in_scope(|| { let _ =
std::io::stdout(); Guard(..) })`.  The work initializes stdout's buffer and
builds the guard handle; the model returns, inside the `Except`, the world
after initialization together with the flag value the thread had while
stdout was being initialized (so that "initialized while disabled" is a
statement about the returned value). -/
def housekeeping (t : TState) (w : World) :
    TState × Except Unit (World × Bool) :=
  disable_in_scope
    (fun t1 => (t1, Except.ok ({ w with stdoutInit := true }, t1.flag))) t

/-- `Guard::drop` inside `housekeeping` (lib.rs:110-115):
`maybe_with_guard(|mut trace| *trace = false)` — write `false` through the
exclusive borrow, emitting nothing. -/
def guardDrop (t : TState) : TState :=
  (maybe_with_guard (fun _flag => (false, [], false)) t).1

/-- One request against the allocator, for sequence-level refinement. -/
inductive Op where
  | alloc (layout : Layout)
  | dealloc (ptr : Nat) (layout : Layout)
  | alloc_zeroed (layout : Layout)
  | realloc (old_ptr : Nat) (old_layout : Layout) (new_size : Nat)
deriving DecidableEq, Repr

/-- Run a sequence of requests against the underlying allocator alone,
collecting the addresses returned by the address-returning operations. -/
def runUnderlying {σ : Type} (A : GlobalAlloc σ) (s : σ) :
    List Op → σ × List Nat
  | [] => (s, [])
  | Op.alloc l :: ops =>
      let r := A.alloc s l
      let rest := runUnderlying A r.1 ops
      (rest.1, r.2 :: rest.2)
  | Op.dealloc p l :: ops =>
      runUnderlying A (A.dealloc s p l) ops
  | Op.alloc_zeroed l :: ops =>
      let r := A.alloc_zeroed s l
      let rest := runUnderlying A r.1 ops
      (rest.1, r.2 :: rest.2)
  | Op.realloc p l n :: ops =>
      let r := A.realloc s p l n
      let rest := runUnderlying A r.1 ops
      (rest.1, r.2 :: rest.2)

/-- Run the same sequence through the `TracingAllocator` wrapper, threading
the thread state and accumulating emitted events alongside the returned
addresses. -/
def runTraced {σ : Type} (A : TracingAllocator σ) (sink : Event → Bool)
    (s : σ) (t : TState) : List Op → σ × TState × List Event × List Nat
  | [] => (s, t, [], [])
  | Op.alloc l :: ops =>
      let r := A.alloc sink s t l
      let rest := runTraced A sink r.1 r.2.1 ops
      (rest.1, rest.2.1, r.2.2.1 ++ rest.2.2.1, r.2.2.2 :: rest.2.2.2)
  | Op.dealloc p l :: ops =>
      let r := A.dealloc sink s t p l
      let rest := runTraced A sink r.1 r.2.1 ops
      (rest.1, rest.2.1, r.2.2 ++ rest.2.2.1, rest.2.2.2)
  | Op.alloc_zeroed l :: ops =>
      let r := A.alloc_zeroed sink s t l
      let rest := runTraced A sink r.1 r.2.1 ops
      (rest.1, rest.2.1, r.2.2.1 ++ rest.2.2.1, r.2.2.2 :: rest.2.2.2)
  | Op.realloc p l n :: ops =>
      let r := A.realloc sink s t p l n
      let rest := runTraced A sink r.1 r.2.1 ops
      (rest.1, rest.2.1, r.2.2.1 ++ rest.2.2.1, r.2.2.2 :: rest.2.2.2)

/-- A tiny concrete underlying allocator over a bump counter, used by
closed witnesses: `alloc`/`alloc_zeroed` return the counter as the address
(starting at 16) and bump it by the size; `realloc` returns a fresh bump
address; `dealloc` leaves the counter alone. -/
def bumpAlloc : GlobalAlloc Nat :=
  { alloc := fun s l => (s + l.size, s)
    dealloc := fun s _ _ => s
    alloc_zeroed := fun s l => (s + l.size, s)
    realloc := fun s _ _ n => (s + n, s) }

/-- The concrete wrapper around `bumpAlloc`. -/
def bumpTracing : TracingAllocator Nat := { allocator := bumpAlloc }

/-- A sink that always accepts the record. -/
def okSink : Event → Bool := fun _ => true

/-- A sink that always panics while the record is being submitted. -/
def panicSink : Event → Bool := fun _ => false

/-- The work performed inside a tracing scope in the nesting scenario: one
`TracingAllocator::alloc`, with the emitted events and returned address as
the scope's result. -/
def allocWork {σ : Type} (A : TracingAllocator σ) (sink : Event → Bool)
    (s : σ) (l : Layout) : TState → TState × Except Unit (List Event × Nat) :=
  fun t1 =>
    let r := A.alloc sink s t1 l
    (r.2.1, Except.ok (r.2.2.1, r.2.2.2))

/-- A work item that panics immediately, for exercising the unwinding path
of the scoped helpers. -/
def panicWork : TState → TState × Except Unit Unit :=
  fun t1 => (t1, Except.error ())

/-- The emission closures never rewrite the flag, so `maybe_with_guard`
returns the thread state it was given, whatever the sink does. -/
lemma maybe_with_guard_emit_fst (sink : Event → Bool) (ev : Event)
    (t : TState) : (maybe_with_guard (emitIfEnabled sink ev) t).1 = t := by
  obtain ⟨fl, hd, al⟩ := t
  cases al <;> cases hd <;> cases fl <;>
    cases h : sink ev <;>
      simp [maybe_with_guard, emitIfEnabled, h]

/-- Sequence-level refinement: running any request list through the wrapper
yields the same final underlying-allocator state and the same returned
addresses as running it against the underlying allocator alone. -/
lemma runTraced_refines {σ : Type} (A : TracingAllocator σ)
    (sink : Event → Bool) :
    ∀ (ops : List Op) (s : σ) (t : TState),
      (runTraced A sink s t ops).1 = (runUnderlying A.allocator s ops).1 ∧
      (runTraced A sink s t ops).2.2.2 = (runUnderlying A.allocator s ops).2
  | [], s, t => by simp [runTraced, runUnderlying]
  | Op.alloc l :: ops, s, t => by
      have ih := runTraced_refines A sink ops (A.allocator.alloc s l).1
        (maybe_with_guard
          (emitIfEnabled sink (Event.alloc (A.allocator.alloc s l).2 l.size)) t).1
      simp [runTraced, runUnderlying, TracingAllocator.alloc, ih.1, ih.2]
  | Op.dealloc p l :: ops, s, t => by
      have ih := runTraced_refines A sink ops (A.allocator.dealloc s p l)
        (maybe_with_guard (emitIfEnabled sink (Event.dealloc p l.size)) t).1
      simp [runTraced, runUnderlying, TracingAllocator.dealloc, ih.1, ih.2]
  | Op.alloc_zeroed l :: ops, s, t => by
      have ih := runTraced_refines A sink ops (A.allocator.alloc_zeroed s l).1
        (maybe_with_guard
          (emitIfEnabled sink
            (Event.alloc_zeroed (A.allocator.alloc_zeroed s l).2 l.size)) t).1
      simp [runTraced, runUnderlying, TracingAllocator.alloc_zeroed, ih.1, ih.2]
  | Op.realloc p l n :: ops, s, t => by
      have ih := runTraced_refines A sink ops (A.allocator.realloc s p l n).1
        (maybe_with_guard
          (emitIfEnabled sink
            (Event.realloc p l.size (A.allocator.realloc s p l n).2 n)) t).1
      simp [runTraced, runUnderlying, TracingAllocator.realloc, ih.1, ih.2]

/-- C1: every `TracingAllocator` operation delegates to the underlying
allocator with the unmodified arguments and returns exactly the underlying
allocator's result — the same address (bit-identical, null included, since
a null return is just the address 0) and the same underlying-allocator
state — for any sink behavior and any thread state; consequently any
request sequence returns the very addresses the underlying allocator alone
would return. -/
theorem c1_delegation_refinement {σ : Type} (A : TracingAllocator σ)
    (sink : Event → Bool) (s : σ) (t : TState) (l : Layout) (p n : Nat)
    (ops : List Op) :
    (A.alloc sink s t l).1 = (A.allocator.alloc s l).1 ∧
    (A.alloc sink s t l).2.2.2 = (A.allocator.alloc s l).2 ∧
    (A.dealloc sink s t p l).1 = A.allocator.dealloc s p l ∧
    (A.alloc_zeroed sink s t l).1 = (A.allocator.alloc_zeroed s l).1 ∧
    (A.alloc_zeroed sink s t l).2.2.2 = (A.allocator.alloc_zeroed s l).2 ∧
    (A.realloc sink s t p l n).1 = (A.allocator.realloc s p l n).1 ∧
    (A.realloc sink s t p l n).2.2.2 = (A.allocator.realloc s p l n).2 ∧
    (runTraced A sink s t ops).1 = (runUnderlying A.allocator s ops).1 ∧
    (runTraced A sink s t ops).2.2.2 = (runUnderlying A.allocator s ops).2 := by
  refine ⟨rfl, rfl, rfl, rfl, rfl, rfl, rfl, ?_, ?_⟩
  · exact (runTraced_refines A sink ops s t).1
  · exact (runTraced_refines A sink ops s t).2

/-- C10: no allocator operation modifies the current thread's trace flag —
the emission path only reads it under the exclusive borrow — so the flag
after each of the four operations equals the flag before, for any sink and
any thread state. -/
theorem c10_flag_frame {σ : Type} (A : TracingAllocator σ)
    (sink : Event → Bool) (s : σ) (t : TState) (l : Layout) (p n : Nat) :
    (A.alloc sink s t l).2.1.flag = t.flag ∧
    (A.dealloc sink s t p l).2.1.flag = t.flag ∧
    (A.alloc_zeroed sink s t l).2.1.flag = t.flag ∧
    (A.realloc sink s t p l n).2.1.flag = t.flag := by
  refine ⟨?_, ?_, ?_, ?_⟩ <;>
    simp [TracingAllocator.alloc, TracingAllocator.dealloc,
      TracingAllocator.alloc_zeroed, TracingAllocator.realloc,
      maybe_with_guard_emit_fst]

/-- C2: on a thread whose flag is enabled, free, and accessible, each
operation emits exactly one event of the matching kind: `alloc` and
`alloc_zeroed` carry the requested layout size and the address the
underlying allocator returned, `dealloc` carries the freed pointer and
size, and `realloc` carries old address, old size, new address (the
underlying allocator's result) and new size. -/
theorem c2_one_event_per_call {σ : Type} (A : TracingAllocator σ)
    (sink : Event → Bool) (s : σ) (t : TState) (l : Layout) (p n : Nat)
    (hf : t.flag = true) (hh : t.held = false) (ha : t.tlsAlive = true)
    (hs : ∀ ev, sink ev = true) :
    (A.alloc sink s t l).2.2.1 =
      [Event.alloc (A.allocator.alloc s l).2 l.size] ∧
    (A.dealloc sink s t p l).2.2 = [Event.dealloc p l.size] ∧
    (A.alloc_zeroed sink s t l).2.2.1 =
      [Event.alloc_zeroed (A.allocator.alloc_zeroed s l).2 l.size] ∧
    (A.realloc sink s t p l n).2.2.1 =
      [Event.realloc p l.size (A.allocator.realloc s p l n).2 n] := by
  refine ⟨?_, ?_, ?_, ?_⟩ <;>
    simp [TracingAllocator.alloc, TracingAllocator.dealloc,
      TracingAllocator.alloc_zeroed, TracingAllocator.realloc,
      maybe_with_guard, emitIfEnabled, hf, hh, ha, hs]

/-- Closed instance of C2: on a fresh thread (flag enabled) with an
always-accepting sink, the four operations of the concrete bump allocator
each emit exactly one correctly-filled event. -/
theorem c2_one_event_per_call_witness :
    initialTState.flag = true ∧ initialTState.held = false ∧
    initialTState.tlsAlive = true ∧ (∀ ev, okSink ev = true) ∧
    ((bumpTracing.alloc okSink 16 initialTState ⟨4, 1⟩).2.2.1 =
        [Event.alloc (bumpAlloc.alloc 16 ⟨4, 1⟩).2 4] ∧
      (bumpTracing.dealloc okSink 16 initialTState 7 ⟨4, 1⟩).2.2 =
        [Event.dealloc 7 4] ∧
      (bumpTracing.alloc_zeroed okSink 16 initialTState ⟨4, 1⟩).2.2.1 =
        [Event.alloc_zeroed (bumpAlloc.alloc_zeroed 16 ⟨4, 1⟩).2 4] ∧
      (bumpTracing.realloc okSink 16 initialTState 7 ⟨4, 1⟩ 9).2.2.1 =
        [Event.realloc 7 4 (bumpAlloc.realloc 16 7 ⟨4, 1⟩ 9).2 9]) :=
  ⟨rfl, rfl, rfl, fun _ => rfl,
    c2_one_event_per_call bumpTracing okSink 16 initialTState ⟨4, 1⟩ 7 9
      rfl rfl rfl (fun _ => rfl)⟩

/-- C3: when the thread's flag cell is already exclusively held — the call
is itself nested inside the emission path — every operation skips emission
silently: no event is produced, the thread state is untouched, and the
operation still returns the underlying allocator's result (the model's
totality is the absence of panic, deadlock, and recursion: `try_borrow_mut`
fails fast and maps to a no-op). -/
theorem c3_reentrancy_skips {σ : Type} (A : TracingAllocator σ)
    (sink : Event → Bool) (s : σ) (t : TState) (l : Layout) (p n : Nat)
    (hh : t.held = true) :
    (A.alloc sink s t l) =
      ((A.allocator.alloc s l).1, t, [], (A.allocator.alloc s l).2) ∧
    (A.dealloc sink s t p l) = (A.allocator.dealloc s p l, t, []) ∧
    (A.alloc_zeroed sink s t l) =
      ((A.allocator.alloc_zeroed s l).1, t, [],
        (A.allocator.alloc_zeroed s l).2) ∧
    (A.realloc sink s t p l n) =
      ((A.allocator.realloc s p l n).1, t, [],
        (A.allocator.realloc s p l n).2) := by
  refine ⟨?_, ?_, ?_, ?_⟩ <;>
    simp [TracingAllocator.alloc, TracingAllocator.dealloc,
      TracingAllocator.alloc_zeroed, TracingAllocator.realloc,
      maybe_with_guard, hh]

/-- Closed instance of C3: with the cell held (a nested call from inside
emission), a concrete `alloc` emits nothing and still returns the bump
allocator's address. -/
theorem c3_reentrancy_skips_witness :
    TState.held { flag := true, held := true, tlsAlive := true } = true ∧
    (bumpTracing.alloc okSink 16 { flag := true, held := true, tlsAlive := true }
        ⟨4, 1⟩) =
      ((bumpAlloc.alloc 16 ⟨4, 1⟩).1,
        { flag := true, held := true, tlsAlive := true }, [],
        (bumpAlloc.alloc 16 ⟨4, 1⟩).2) :=
  ⟨rfl,
    (c3_reentrancy_skips bumpTracing okSink 16
      { flag := true, held := true, tlsAlive := true } ⟨4, 1⟩ 7 9 rfl).1⟩

/-- C4: a panic raised while submitting the event (a sink that unwinds on
every record) is caught and discarded inside the operation: each operation
still returns exactly the underlying allocator's result, leaves the thread
state unchanged, and emits nothing — no failure reaches the allocator's
caller (the operations are total functions into plain result tuples). -/
theorem c4_panic_isolated {σ : Type} (A : TracingAllocator σ)
    (sink : Event → Bool) (s : σ) (t : TState) (l : Layout) (p n : Nat)
    (hp : ∀ ev, sink ev = false) :
    (A.alloc sink s t l) =
      ((A.allocator.alloc s l).1, t, [], (A.allocator.alloc s l).2) ∧
    (A.dealloc sink s t p l) = (A.allocator.dealloc s p l, t, []) ∧
    (A.alloc_zeroed sink s t l) =
      ((A.allocator.alloc_zeroed s l).1, t, [],
        (A.allocator.alloc_zeroed s l).2) ∧
    (A.realloc sink s t p l n) =
      ((A.allocator.realloc s p l n).1, t, [],
        (A.allocator.realloc s p l n).2) := by
  obtain ⟨fl, hd, al⟩ := t
  refine ⟨?_, ?_, ?_, ?_⟩ <;>
    cases al <;> cases hd <;> cases fl <;>
      simp [TracingAllocator.alloc, TracingAllocator.dealloc,
        TracingAllocator.alloc_zeroed, TracingAllocator.realloc,
        maybe_with_guard, emitIfEnabled, hp]

/-- Closed instance of C4: with a sink that panics on every record and
tracing enabled, a concrete `alloc` still returns the bump allocator's
address, emits nothing, and leaves the flag enabled. -/
theorem c4_panic_isolated_witness :
    (∀ ev, panicSink ev = false) ∧
    (bumpTracing.alloc panicSink 16 initialTState ⟨4, 1⟩) =
      ((bumpAlloc.alloc 16 ⟨4, 1⟩).1, initialTState, [],
        (bumpAlloc.alloc 16 ⟨4, 1⟩).2) :=
  ⟨fun _ => rfl,
    (c4_panic_isolated bumpTracing panicSink 16 initialTState ⟨4, 1⟩ 7 9
      (fun _ => rfl)).1⟩

/-- C6: on a thread whose flag is disabled, every operation emits zero
events, whatever the sink does (the model is per-thread: no other thread's
flag occurs in the state at all). -/
theorem c6_disabled_emits_nothing {σ : Type} (A : TracingAllocator σ)
    (sink : Event → Bool) (s : σ) (t : TState) (l : Layout) (p n : Nat)
    (hf : t.flag = false) :
    (A.alloc sink s t l).2.2.1 = [] ∧
    (A.dealloc sink s t p l).2.2 = [] ∧
    (A.alloc_zeroed sink s t l).2.2.1 = [] ∧
    (A.realloc sink s t p l n).2.2.1 = [] := by
  obtain ⟨fl, hd, al⟩ := t
  subst hf
  refine ⟨?_, ?_, ?_, ?_⟩ <;>
    cases al <;> cases hd <;>
      simp [TracingAllocator.alloc, TracingAllocator.dealloc,
        TracingAllocator.alloc_zeroed, TracingAllocator.realloc,
        maybe_with_guard, emitIfEnabled]

/-- Closed instance of C6: with the flag disabled, all four concrete
operations emit no events even with an accepting sink. -/
theorem c6_disabled_emits_nothing_witness :
    TState.flag { flag := false, held := false, tlsAlive := true } = false ∧
    ((bumpTracing.alloc okSink 16
        { flag := false, held := false, tlsAlive := true } ⟨4, 1⟩).2.2.1 = [] ∧
      (bumpTracing.dealloc okSink 16
        { flag := false, held := false, tlsAlive := true } 7 ⟨4, 1⟩).2.2 = [] ∧
      (bumpTracing.alloc_zeroed okSink 16
        { flag := false, held := false, tlsAlive := true } ⟨4, 1⟩).2.2.1 = [] ∧
      (bumpTracing.realloc okSink 16
        { flag := false, held := false, tlsAlive := true } 7 ⟨4, 1⟩ 9).2.2.1
        = []) :=
  ⟨rfl,
    c6_disabled_emits_nothing bumpTracing okSink 16
      { flag := false, held := false, tlsAlive := true } ⟨4, 1⟩ 7 9 rfl⟩

/-- Counterexample to C5 as stated: start a thread with the flag enabled
and run `disable_in_scope` on work that panics.  The prior flag value was
`true`, yet afterwards the flag is `false` — the source restores the saved
value only on the normal-return line, which a panic unwinds past — and the
panic propagates out of `disable_in_scope`. -/
theorem c5_restore_counterexample :
    initialTState.flag = true ∧
    (disable_in_scope panicWork initialTState).1.flag = false ∧
    (disable_in_scope panicWork initialTState).2 = Except.error () :=
  ⟨rfl, rfl, rfl⟩

/-- C5 amended: `disable_in_scope` sets the current thread's flag to
disabled, runs the work, and on *normal* return restores the prior flag
value and returns the work's result; when the work panics, the panic
propagates and the flag is left disabled (the restore line is skipped). -/
theorem c5_disable_in_scope {R : Type} (f : TState → TState × Except Unit R)
    (t t2 : TState) (ha : t.tlsAlive = true) (hh : t.held = false) :
    (∀ r : R, f { t with flag := false } = (t2, Except.ok r) →
      t2.tlsAlive = true → t2.held = false →
      disable_in_scope f t = ({ t2 with flag := t.flag }, Except.ok r)) ∧
    (∀ e : Unit, f { t with flag := false } = (t2, Except.error e) →
      disable_in_scope f t = (t2, Except.error e)) := by
  obtain ⟨fl, hd, al⟩ := t
  simp only at ha hh
  subst ha hh
  constructor
  · intro r hf h2a h2h
    simp [disable_in_scope, hf, h2a, h2h]
  · intro e hf
    simp [disable_in_scope, hf]

/-- Closed instance of amended C5: on a fresh enabled thread, a scope whose
work rewrites nothing and returns `5` yields `5` with the flag restored
to enabled. -/
theorem c5_disable_in_scope_witness :
    initialTState.tlsAlive = true ∧ initialTState.held = false ∧
    (disable_in_scope (fun t1 => (t1, Except.ok 5)) initialTState =
      ({ flag := true, held := false, tlsAlive := true }, Except.ok 5)) :=
  ⟨rfl, rfl,
    (c5_disable_in_scope (fun t1 => (t1, Except.ok 5)) initialTState
        { flag := false, held := false, tlsAlive := true } rfl rfl).1
      5 rfl rfl rfl⟩

/-- C7: scoped helpers are a save/restore round trip.  First two conjuncts:
whichever flag value a disabling or enabling scope finds on entry, a
normally-returning scope ends with exactly that value.  Third conjunct: the
spec's nesting scenario — an allocation inside an enabling scope inside a
disabling scope — returns the thread state identical to the one before the
outermost scope was entered, while the inner allocation still emitted its
one `alloc` event. -/
theorem c7_nesting_round_trip {σ : Type} (A : TracingAllocator σ)
    (sink : Event → Bool) (s : σ) (l : Layout) (t : TState)
    (ha : t.tlsAlive = true) (hh : t.held = false)
    (hs : ∀ ev, sink ev = true) :
    (∀ (R : Type) (f : TState → TState × Except Unit R) (t2 : TState) (r : R),
      f { t with flag := false } = (t2, Except.ok r) → t2.tlsAlive = true →
      t2.held = false → (disable_in_scope f t).1.flag = t.flag) ∧
    (∀ (R : Type) (f : TState → TState × Except Unit R) (t2 : TState) (r : R),
      f { t with flag := true } = (t2, Except.ok r) → t2.tlsAlive = true →
      t2.held = false → (enable_in_scope f t).1.flag = t.flag) ∧
    disable_in_scope (fun t1 => enable_in_scope (allocWork A sink s l) t1) t =
      (t, Except.ok ([Event.alloc (A.allocator.alloc s l).2 l.size],
        (A.allocator.alloc s l).2)) := by
  obtain ⟨fl, hd, al⟩ := t
  simp only at ha hh
  subst ha hh
  refine ⟨?_, ?_, ?_⟩
  · intro R f t2 r hf h2a h2h
    simp [disable_in_scope, hf, h2a, h2h]
  · intro R f t2 r hf h2a h2h
    simp [enable_in_scope, hf, h2a, h2h]
  · cases fl <;>
      simp [disable_in_scope, enable_in_scope, allocWork,
        TracingAllocator.alloc, maybe_with_guard, emitIfEnabled, hs]

/-- Closed instance of C7: the concrete nesting
`disable(enable(alloc))` on a fresh thread ends in exactly the initial
thread state and carries the inner allocation's event. -/
theorem c7_nesting_round_trip_witness :
    initialTState.tlsAlive = true ∧ initialTState.held = false ∧
    (∀ ev, okSink ev = true) ∧
    disable_in_scope
        (fun t1 => enable_in_scope (allocWork bumpTracing okSink 16 ⟨4, 1⟩) t1)
        initialTState =
      (initialTState, Except.ok ([Event.alloc 16 4], 16)) :=
  ⟨rfl, rfl, fun _ => rfl,
    (c7_nesting_round_trip bumpTracing okSink 16 ⟨4, 1⟩ initialTState
      rfl rfl (fun _ => rfl)).2.2⟩

/-- C8: `housekeeping` initializes the stdout buffer while the calling
thread's flag reads disabled (the `false` returned inside the handle is
the flag value observed at initialization time), restores the thread state
it found, and the returned guard's drop writes the flag to disabled; an
allocator call after the drop finds the flag still disabled. -/
theorem c8_housekeeping {σ : Type} (A : TracingAllocator σ)
    (sink : Event → Bool) (s : σ) (l : Layout) (t : TState) (w : World)
    (ha : t.tlsAlive = true) (hh : t.held = false) :
    housekeeping t w = (t, Except.ok ({ stdoutInit := true }, false)) ∧
    (guardDrop (housekeeping t w).1).flag = false ∧
    (A.alloc sink s (guardDrop (housekeeping t w).1) l).2.1.flag = false := by
  obtain ⟨fl, hd, al⟩ := t
  simp only at ha hh
  subst ha hh
  have h1 : housekeeping ⟨fl, false, true⟩ w =
      (⟨fl, false, true⟩, Except.ok ({ stdoutInit := true }, false)) := by
    simp [housekeeping, disable_in_scope]
  refine ⟨h1, ?_, ?_⟩
  · simp [h1, guardDrop, maybe_with_guard]
  · simp [h1, guardDrop, maybe_with_guard, TracingAllocator.alloc,
      emitIfEnabled]

/-- Closed instance of C8: on a fresh enabled thread, `housekeeping`
reports stdout initialized under a disabled flag, hands back the original
state, and after the guard's drop a concrete `alloc` still sees the flag
disabled. -/
theorem c8_housekeeping_witness :
    initialTState.tlsAlive = true ∧ initialTState.held = false ∧
    (housekeeping initialTState ⟨false⟩ =
        (initialTState, Except.ok ({ stdoutInit := true }, false)) ∧
      (guardDrop (housekeeping initialTState ⟨false⟩).1).flag = false ∧
      (bumpTracing.alloc okSink 16
          (guardDrop (housekeeping initialTState ⟨false⟩).1)
          ⟨4, 1⟩).2.1.flag = false) :=
  ⟨rfl, rfl,
    c8_housekeeping bumpTracing okSink 16 ⟨4, 1⟩ initialTState ⟨false⟩ rfl rfl⟩

/-- C9: the thread-local `TRACE_ALLOCATOR` cell is created with value
`true`: a fresh thread's flag is enabled, its cell free and its storage
alive, and consequently an allocation on a fresh thread is traced without
any enabling scope — the concrete bump allocator's `alloc` on
`initialTState` emits its event. -/
theorem c9_default_enabled :
    initialTState = { flag := true, held := false, tlsAlive := true } ∧
    (bumpTracing.alloc okSink 16 initialTState ⟨4, 1⟩).2.2.1 =
      [Event.alloc 16 4] :=
  ⟨rfl, rfl⟩
